import Mathlib

/-!
Verification of the real-time analytics platform's data-quality validation
engine (`src/quality/schema.py` and `src/quality/validators.py`), as a
shallow embedding in Lean 4.

Python values are modelled by the inductive `PyVal`; `bool` is a subclass of
`int` in Python, which `isinstance` reflects.  Python `dict`s preserve
insertion order, so an event is an ordered association list.  Python floats
are modelled as exact rationals `ℚ`; the z-score comparison
`abs((value - mean) / stdev) > threshold` (with `stdev = sqrt variance`) is
modelled by the algebraically equivalent comparison
`(value - mean)^2 > threshold^2 * variance` for a nonnegative threshold, so
everything stays in decidable rational arithmetic.  Calls to the external
metrics sink (`record_validation_failure`) and log emission are side effects
outside the data model and are not modelled; each validator's
`failure_count` state is modelled explicitly.
-/

namespace RTAP

/-- Python-style runtime values stored in event records. -/
inductive PyVal where
  | none
  | bool (b : Bool)
  | int (n : Int)
  | float (q : ℚ)
  | str (s : String)
  | dict (entries : List (String × PyVal))

/-- Python type name, as produced by `type(x).__name__`. -/
def PyVal.typeName : PyVal → String
  | .none => "NoneType"
  | .bool _ => "bool"
  | .int _ => "int"
  | .float _ => "float"
  | .str _ => "str"
  | .dict _ => "dict"

/-- Rendering used where the source interpolates a value into an f-string.
Rendering of floats and dicts approximates CPython's `str()`; no claim
depends on those two renderings. -/
def PyVal.pyStr : PyVal → String
  | .none => "None"
  | .bool b => if b then "True" else "False"
  | .int n => toString n
  | .float q => toString q
  | .str s => s
  | .dict _ => "\x7b...\x7d"

/-- The three Python types named in `EventSchema.REQUIRED_FIELDS`. -/
inductive PyType where
  | tStr
  | tInt
  | tDict

/-- Python type name, as produced by `field_type.__name__`. -/
def PyType.pyName : PyType → String
  | .tStr => "str"
  | .tInt => "int"
  | .tDict => "dict"

/-- Python `isinstance`; note `isinstance(True, int)` is `True` because
`bool` subclasses `int`, while a float is not an `int`. -/
def isinstance : PyVal → PyType → Bool
  | .str _, .tStr => true
  | .int _, .tInt => true
  | .bool _, .tInt => true
  | .dict _, .tDict => true
  | _, _ => false

/-- Numeric view: Python `isinstance(v, (int, float))` succeeds exactly on
these constructors (`bool` included), and these are the values Python's
numeric comparisons act on. -/
def PyVal.toNum : PyVal → Option ℚ
  | .int n => some (n : ℚ)
  | .bool b => some (if b then 1 else 0)
  | .float q => some q
  | _ => Option.none

/-- An event record: a Python dict with string keys, in insertion order. -/
abbrev Event := List (String × PyVal)

/-- Dict key lookup (`event[field]` / `field in event`), first match. -/
def lookupField (ev : Event) (k : String) : Option PyVal :=
  match ev with
  | [] => Option.none
  | (k2, v) :: rest => if k2 == k then some v else lookupField rest k

/-- Total access used after a presence check in the source (a `KeyError`
would be unreachable there). -/
def getField (ev : Event) (k : String) : PyVal :=
  (lookupField ev k).getD PyVal.none

/-- Python `v in xs` where `xs` is a list of strings: true only when `v`
itself is the equal string. -/
def strMember (v : PyVal) (xs : List String) : Bool :=
  match v with
  | .str s => xs.contains s
  | _ => false

/-- Substring test on character lists, used to state "the message mentions
`user_id`". -/
def listHasInfix (hay needle : List Char) : Bool :=
  match hay with
  | [] => needle.isEmpty
  | _ :: t => needle.isPrefixOf hay || listHasInfix t needle

/-- String `needle` occurs inside `hay`. -/
def strContains (hay needle : String) : Bool :=
  listHasInfix hay.toList needle.toList

/-! ### ISO-8601 timestamp acceptance

The source calls `datetime.fromisoformat(event['timestamp'].replace('Z', '+00:00'))`
and treats `ValueError`/`AttributeError` as schema failure.  The parser is
modelled on strings of the shape `YYYY-MM-DD[<sep>HH:MM[:SS[.f{1,6}]][±HH:MM]]`
with calendar-valid dates, the subset of CPython `fromisoformat` the
platform's timestamps use. -/

def natOfDigits (cs : List Char) : Nat :=
  cs.foldl (fun a c => a * 10 + (c.toNat - 48)) 0

def isLeap (y : Nat) : Bool :=
  y % 4 == 0 && (y % 100 != 0 || y % 400 == 0)

def daysIn (y m : Nat) : Nat :=
  if m == 2 then (if isLeap y then 29 else 28)
  else if m == 4 || m == 6 || m == 9 || m == 11 then 30
  else 31

/-- Read exactly two decimal digits. -/
def twoDigits : List Char → Option (Nat × List Char)
  | a :: b :: rest =>
    if a.isDigit && b.isDigit then some (natOfDigits [a, b], rest) else Option.none
  | _ => Option.none

/-- Optional trailing UTC-offset part `±HH:MM`. -/
def offsetOk : List Char → Bool
  | [] => true
  | c :: rest =>
    (c == '+' || c == '-') &&
    (match twoDigits rest with
     | some (hh, r1) =>
       hh ≤ 23 &&
       (match r1 with
        | ':' :: r2 =>
          (match twoDigits r2 with
           | some (mm, r3) => mm ≤ 59 && r3.isEmpty
           | _ => false)
        | _ => false)
     | _ => false)

/-- Optional fractional-seconds part `.f{1,6}`, then optional offset. -/
def fracOk (cs : List Char) : Bool :=
  match cs with
  | '.' :: rest =>
    let ds := rest.takeWhile Char.isDigit
    1 ≤ ds.length && ds.length ≤ 6 && offsetOk (rest.drop ds.length)
  | r => offsetOk r

/-- Optional seconds part `:SS`, then fraction/offset. -/
def secondsOk : List Char → Bool
  | ':' :: rest =>
    (match twoDigits rest with
     | some (ss, r) => ss ≤ 59 && fracOk r
     | _ => false)
  | [] => true
  | r => offsetOk r

/-- Time-of-day part `HH:MM[:SS[.frac]][offset]`. -/
def timeOk (cs : List Char) : Bool :=
  match twoDigits cs with
  | some (hh, r1) =>
    hh ≤ 23 &&
    (match r1 with
     | ':' :: r2 =>
       (match twoDigits r2 with
        | some (mm, r3) => mm ≤ 59 && secondsOk r3
        | _ => false)
     | _ => false)
  | _ => false

/-- Acceptance of a whole (already `Z`-replaced) timestamp string. -/
def isoChars (cs : List Char) : Bool :=
  match cs with
  | y1 :: y2 :: y3 :: y4 :: c1 :: m1 :: m2 :: c2 :: d1 :: d2 :: rest =>
    [y1, y2, y3, y4, m1, m2, d1, d2].all Char.isDigit &&
    c1 == '-' && c2 == '-' &&
    (let y := natOfDigits [y1, y2, y3, y4]
     let m := natOfDigits [m1, m2]
     let d := natOfDigits [d1, d2]
     1 ≤ y && 1 ≤ m && m ≤ 12 && 1 ≤ d && d ≤ daysIn y m) &&
    (match rest with
     | [] => true
     | _ :: t => timeOk t)
  | _ => false

/-! ### EventSchema (src/quality/schema.py) -/

namespace EventSchema

/-- Required fields with their Python types, in the source's dict order. -/
def REQUIRED_FIELDS : List (String × PyType) :=
  [("event_id", .tStr), ("event_type", .tStr), ("user_id", .tInt),
   ("timestamp", .tStr), ("session_id", .tStr), ("properties", .tDict),
   ("device", .tStr), ("geo_location", .tStr)]

def VALID_EVENT_TYPES : List String :=
  ["page_view", "click", "add_to_cart", "purchase", "user_login",
   "user_logout", "search", "video_play", "video_complete", "wishlist_add",
   "review_submit", "checkout_start", "checkout_complete"]

def VALID_DEVICE_TYPES : List String := ["mobile", "desktop", "tablet"]

def VALID_SOURCES : List String := ["organic", "paid", "direct", "referral"]

end EventSchema

/-- The required-fields loop of `EventSchema.validate`: first missing field
or type mismatch, in field order. -/
def requiredError (ev : Event) : List (String × PyType) → Option String
  | [] => Option.none
  | (f, t) :: rest =>
    match lookupField ev f with
    | Option.none => some ("Missing required field: " ++ f)
    | some v =>
      if isinstance v t then requiredError ev rest
      else some ("Invalid type for " ++ f ++ ": expected " ++ t.pyName ++
                 ", got " ++ v.typeName)

/-- Python `s.replace('Z', '+00:00')` on the character list: every `'Z'`
becomes `+00:00` (exact for a one-character pattern). -/
def replaceZ : List Char → List Char
  | [] => []
  | c :: rest =>
    if c == 'Z' then '+' :: '0' :: '0' :: ':' :: '0' :: '0' :: replaceZ rest
    else c :: replaceZ rest

/-- Check (d) of the schema: `geo_location` is a string containing `-`. -/
def geoOk : PyVal → Bool
  | .str s => s.toList.contains '-'
  | _ => false

/-- Check (e): `'source' in event and event['source'] not in VALID_SOURCES`. -/
def sourceBad (ev : Event) : Bool :=
  match lookupField ev "source" with
  | some v => !strMember v EventSchema.VALID_SOURCES
  | Option.none => false

/-- Check (f): the `Z`-replaced timestamp parses; a non-string raises
`AttributeError` on `.replace`, which the source catches as invalid. -/
def timestampOk : PyVal → Bool
  | .str s => isoChars (replaceZ s.toList)
  | _ => false

/-- Check (g): Python `event['user_id'] <= 0` on a numeric value. -/
def numLeZero (v : PyVal) : Bool :=
  match v.toNum with
  | some q => decide (q ≤ 0)
  | Option.none => false

/-- Embedding of `EventSchema.validate`: the sequential checks of
schema.py lines 154-192, returning `(is_valid, error_message)`. -/
def EventSchema.validate (ev : Event) : Bool × Option String :=
  match requiredError ev EventSchema.REQUIRED_FIELDS with
  | some e => (false, some e)
  | Option.none =>
    if !strMember (getField ev "event_type") EventSchema.VALID_EVENT_TYPES then
      (false, some ("Invalid event_type: " ++ (getField ev "event_type").pyStr))
    else if !strMember (getField ev "device") EventSchema.VALID_DEVICE_TYPES then
      (false, some ("Invalid device: " ++ (getField ev "device").pyStr))
    else if !geoOk (getField ev "geo_location") then
      (false, some ("Invalid geo_location format: " ++
                    (getField ev "geo_location").pyStr))
    else if sourceBad ev then
      (false, some ("Invalid source: " ++ (getField ev "source").pyStr))
    else if !timestampOk (getField ev "timestamp") then
      (false, some ("Invalid timestamp format: " ++
                    (getField ev "timestamp").pyStr))
    else if numLeZero (getField ev "user_id") then
      (false, some "user_id must be positive")
    else (true, Option.none)

/-! ### Validators (src/quality/validators.py) -/

/-- Result of one validation check (the `ValidationResult` dataclass; the
`None` default for `warnings` becomes `[]` in `__post_init__`). -/
structure ValidationResult where
  is_valid : Bool
  validator_name : String
  error_message : Option String
  warnings : List String

/-- State of the schema validator (its mutable `failure_count`). -/
structure SchemaValidator where
  failure_count : Nat

/-- Embedding of `SchemaValidator.validate`. -/
def SchemaValidator.validate (sv : SchemaValidator) (ev : Event) :
    SchemaValidator × ValidationResult :=
  let r := EventSchema.validate ev
  (⟨if r.1 then sv.failure_count else sv.failure_count + 1⟩,
   ⟨r.1, "schema_validator", r.2, []⟩)

/-- One entry of `RangeValidator.RANGE_CONSTRAINTS`. -/
structure RangeBounds where
  lo : ℚ
  hi : ℚ

/-- The source's `RANGE_CONSTRAINTS` dict (`0.01 = 1/100`,
`999999.99 = 99999999/100`). -/
def RANGE_CONSTRAINTS : List (String × RangeBounds) :=
  [("user_id", ⟨1, 9999999999⟩),
   ("price", ⟨1 / 100, 99999999 / 100⟩),
   ("quantity", ⟨1, 1000⟩),
   ("discount", ⟨0, 100⟩)]

/-- Bounds for a field name, when the name is constrained. -/
def rangeFind (f : String) : Option RangeBounds :=
  (RANGE_CONSTRAINTS.find? (fun p => p.1 == f)).map (fun p => p.2)

/-- Warning text for one out-of-range field (`tag` is `"Field"` at top level
and `"Property"` inside `properties`; numeric rendering of the rational
bounds approximates CPython float formatting, and no claim depends on it). -/
def rangeMsg (tag f : String) (v : PyVal) (b : RangeBounds) : String :=
  tag ++ " " ++ f ++ "=" ++ v.pyStr ++ " out of range [" ++
    toString b.lo ++ ", " ++ toString b.hi ++ "]"

/-- One scan loop of `RangeValidator.validate`: for each item whose name is
constrained and whose value is numeric, emit one warning when the value is
outside `[lo, hi]`; never abort. -/
def rangeScan (tag : String) : List (String × PyVal) → List String
  | [] => []
  | (f, v) :: rest =>
    (match rangeFind f, v.toNum with
     | some b, some q =>
       if b.lo ≤ q && q ≤ b.hi then [] else [rangeMsg tag f v b]
     | _, _ => []) ++ rangeScan tag rest

/-- The `properties` sub-dict, when present and a dict (the source checks
`'properties' in event and isinstance(event['properties'], dict)`). -/
def propsItems (ev : Event) : List (String × PyVal) :=
  match lookupField ev "properties" with
  | some (.dict m) => m
  | _ => []

/-- State of the range validator. -/
structure RangeValidator where
  failure_count : Nat

/-- Embedding of `RangeValidator.validate`. -/
def RangeValidator.validate (rv : RangeValidator) (ev : Event) :
    RangeValidator × ValidationResult :=
  let ws := rangeScan "Field" ev ++ rangeScan "Property" (propsItems ev)
  let ok := ws.length == 0
  (⟨rv.failure_count + (if ok then 0 else 1)⟩,
   ⟨ok, "range_validator", Option.none, ws⟩)

/-- The source's `REQUIRED_NON_NULL` list. -/
def REQUIRED_NON_NULL : List String :=
  ["event_id", "event_type", "user_id", "timestamp", "device", "geo_location"]

/-- The ASCII whitespace Python `str.strip()` removes (non-ASCII Unicode
whitespace is not modelled; the platform's fields are ASCII). -/
def pyIsSpace (c : Char) : Bool :=
  c == ' ' || c == '\t' || c == '\n' || c == '\r' || c == '\x0b' || c == '\x0c'

/-- Python `value is None or (isinstance(value, str) and value.strip() == '')`:
true when stripping whitespace from both ends leaves nothing. -/
def isNullOrEmpty : PyVal → Bool
  | .none => true
  | .str s => s.toList.all pyIsSpace
  | _ => false

/-- The collection loop of `NullabilityValidator.validate`: one error string
per violating field, distinguishing missing from null/empty, no
short-circuit. -/
def nullScan (ev : Event) : List String → List String
  | [] => []
  | f :: rest =>
    match lookupField ev f with
    | Option.none => ("Missing required field: " ++ f) :: nullScan ev rest
    | some v =>
      if isNullOrEmpty v then
        ("Required field is null/empty: " ++ f) :: nullScan ev rest
      else nullScan ev rest

/-- All nullability errors of an event. -/
def nullabilityErrors (ev : Event) : List String :=
  nullScan ev REQUIRED_NON_NULL

/-- State of the nullability validator. -/
structure NullabilityValidator where
  failure_count : Nat

/-- Embedding of `NullabilityValidator.validate`. -/
def NullabilityValidator.validate (nv : NullabilityValidator) (ev : Event) :
    NullabilityValidator × ValidationResult :=
  let errs := nullabilityErrors ev
  let ok := errs.length == 0
  (⟨nv.failure_count + (if ok then 0 else 1)⟩,
   ⟨ok, "nullability_validator",
    if errs.isEmpty then Option.none
    else some (String.intercalate "; " errs), []⟩)

/-! ### Anomaly detector -/

/-- State of the anomaly detector: the bounded `deque(maxlen=window_size)`
value history plus configuration and failure counter. -/
structure AnomalyDetector where
  window_size : Nat
  std_threshold : ℚ
  value_history : List ℚ
  failure_count : Nat

/-- A fresh detector with the constructor defaults `window_size=100`,
`std_threshold=3.0`. -/
def AnomalyDetector.init : AnomalyDetector := ⟨100, 3, [], 0⟩

/-- Appending to a `deque(maxlen=maxlen)`: the new element goes on the
right and the excess is discarded from the left. -/
def dequePush (maxlen : Nat) (xs : List ℚ) (v : ℚ) : List ℚ :=
  let ys := xs ++ [v]
  ys.drop (ys.length - maxlen)

/-- Exact `statistics.mean`. -/
def sampleMean (xs : List ℚ) : ℚ := xs.sum / (xs.length : ℚ)

/-- Exact square of `statistics.stdev` (sample variance, denominator
`n - 1`); `stdev == 0` iff the variance is 0. -/
def sampleVariance (xs : List ℚ) : ℚ :=
  ((xs.map (fun x => (x - sampleMean xs) ^ 2)).sum) / ((xs.length - 1 : ℕ) : ℚ)

/-- Exact form of `abs((value - mean) / stdev) > t` where
`stdev = sqrt variance > 0`: for `t ≥ 0` both sides are nonnegative and the
comparison squares to `(value - mean)^2 > t^2 * variance`; for `t < 0` the
nonnegative z-score always exceeds `t`. -/
def anomalyExceeds (value mean variance t : ℚ) : Bool :=
  if 0 ≤ t then decide ((value - mean) ^ 2 > t ^ 2 * variance) else true

/-- Warning text for a flagged anomaly; the source formats value, mean,
stdev and z-score to two decimals, which is irrational data under exact
arithmetic — the rendering here is an approximation and no claim depends on
it. -/
def anomalyMsg (f : String) (value mean variance : ℚ) : String :=
  "Anomaly detected in " ++ f ++ ": value=" ++ toString value ++
    ", mean=" ++ toString mean ++ ", variance=" ++ toString variance

/-- Embedding of `AnomalyDetector.detect`: append to the window, return an
advisory result below 10 samples, treat zero deviation as non-anomalous,
otherwise flag iff the z-score exceeds the threshold. -/
def AnomalyDetector.detect (d : AnomalyDetector) (f : String) (value : ℚ) :
    AnomalyDetector × ValidationResult :=
  let hist := dequePush d.window_size d.value_history value
  if hist.length < 10 then
    (⟨d.window_size, d.std_threshold, hist, d.failure_count⟩,
     ⟨true, "anomaly_detector", Option.none,
      ["Insufficient samples for anomaly detection"]⟩)
  else
    let m := sampleMean hist
    let variance := sampleVariance hist
    if variance == 0 then
      (⟨d.window_size, d.std_threshold, hist, d.failure_count⟩,
       ⟨true, "anomaly_detector", Option.none, []⟩)
    else if anomalyExceeds value m variance d.std_threshold then
      (⟨d.window_size, d.std_threshold, hist, d.failure_count + 1⟩,
       ⟨false, "anomaly_detector", Option.none, [anomalyMsg f value m variance]⟩)
    else
      (⟨d.window_size, d.std_threshold, hist, d.failure_count⟩,
       ⟨true, "anomaly_detector", Option.none, []⟩)

/-! ### Orchestrator -/

/-- The numeric `properties['price']`, when the orchestrator's condition
`'properties' in event and 'price' in event['properties']` holds and
`isinstance(price, (int, float))`. -/
def priceOf (ev : Event) : Option ℚ :=
  match lookupField ev "properties" with
  | some (.dict m) =>
    (match lookupField m "price" with
     | some v => v.toNum
     | Option.none => Option.none)
  | _ => Option.none

/-- State of the orchestrating `DataValidator`: its four validators and the
retained `validation_results`. -/
structure DataValidator where
  schema_validator : SchemaValidator
  range_validator : RangeValidator
  nullability_validator : NullabilityValidator
  anomaly_detector : AnomalyDetector
  validation_results : List ValidationResult

/-- A fresh `DataValidator()`. -/
def DataValidator.init : DataValidator :=
  ⟨⟨0⟩, ⟨0⟩, ⟨0⟩, AnomalyDetector.init, []⟩

/-- Embedding of `DataValidator.validate`: schema as hard gate with early
return (which does not touch the other validators nor the retained
results), then range, nullability and the conditional price anomaly check;
`overall_valid = schema.is_valid and nullability.is_valid`. -/
def DataValidator.validate (dv : DataValidator) (ev : Event) :
    DataValidator × Bool × List ValidationResult :=
  let s := dv.schema_validator.validate ev
  let schemaR := s.2
  if !schemaR.is_valid then
    (⟨s.1, dv.range_validator, dv.nullability_validator, dv.anomaly_detector,
      dv.validation_results⟩, false, [schemaR])
  else
    let r := dv.range_validator.validate ev
    let n := dv.nullability_validator.validate ev
    let step :=
      match priceOf ev with
      | some q =>
        let a := dv.anomaly_detector.detect "price" q
        (a.1, [schemaR, r.2, n.2, a.2])
      | Option.none => (dv.anomaly_detector, [schemaR, r.2, n.2])
    let overall := schemaR.is_valid && n.2.is_valid
    (⟨s.1, r.1, n.1, step.1, step.2⟩, overall, step.2)

/-- The dictionary returned by `DataValidator.get_summary`. -/
structure Summary where
  total_validations : Nat
  passed : Nat
  warnings : Nat
  validators : List String

/-- Embedding of `DataValidator.get_summary`, computed from the retained
`validation_results`. -/
def DataValidator.get_summary (dv : DataValidator) : Summary :=
  ⟨dv.validation_results.length,
   dv.validation_results.countP (fun r => r.is_valid),
   (dv.validation_results.map (fun r => r.warnings.length)).sum,
   dv.validation_results.map (fun r => r.validator_name)⟩

/-! ### Specification-side descriptions, used to state the claims -/

/-- Spec-side count of range violations in one item list: fields whose name
is constrained, whose value is numeric, and whose value is out of bounds. -/
def outOfRangeOn (items : List (String × PyVal)) : Nat :=
  items.countP (fun p =>
    match rangeFind p.1, p.2.toNum with
    | some b, some q => !(b.lo ≤ q && q ≤ b.hi)
    | _, _ => false)

/-- Spec-side description of the nullability verdict for one field:
missing, null/empty (each with its distinguishing message), or fine. -/
def nullMsgFor (ev : Event) (f : String) : Option String :=
  match lookupField ev f with
  | Option.none => some ("Missing required field: " ++ f)
  | some v =>
    if isNullOrEmpty v then some ("Required field is null/empty: " ++ f)
    else Option.none

/-- Spec-side summary of a result sequence (total, passed, warning count,
validator names). -/
def mkSummaryOf (rs : List ValidationResult) : Summary :=
  ⟨rs.length, rs.countP (fun r => r.is_valid),
   (rs.map (fun r => r.warnings.length)).sum,
   rs.map (fun r => r.validator_name)⟩

/-- State evolution of one `detect` call for the `price` stream. -/
def detectStep (d : AnomalyDetector) (v : ℚ) : AnomalyDetector :=
  (d.detect "price" v).1

/-- Feed a whole sequence of observations into a detector. -/
def feed (d : AnomalyDetector) (vs : List ℚ) : AnomalyDetector :=
  vs.foldl detectStep d

/-! ### Concrete event records used as witnesses and counterexamples -/

/-- The spec §8 well-formed purchase event. -/
def sampleEvent : Event :=
  [("event_id", .str "evt_0000000001"), ("event_type", .str "purchase"),
   ("user_id", .int 12345), ("timestamp", .str "2024-01-01T00:00:00Z"),
   ("session_id", .str "sess_1"),
   ("properties", .dict [("price", .float (4999 / 100))]),
   ("device", .str "mobile"), ("geo_location", .str "US-CA")]

/-- The same event with an out-of-range `properties['price'] = -5`. -/
def rangeEvent : Event :=
  [("event_id", .str "evt_0000000001"), ("event_type", .str "purchase"),
   ("user_id", .int 12345), ("timestamp", .str "2024-01-01T00:00:00Z"),
   ("session_id", .str "sess_1"),
   ("properties", .dict [("price", .int (-5))]),
   ("device", .str "mobile"), ("geo_location", .str "US-CA")]

/-- An event failing schema validation (first required field missing). -/
def badEvent : Event := [("session_id", .str "sess_1")]

/-- A record with `user_id = -5` that also has an invalid `event_type`:
the schema check for `event_type` fires before the positivity check. -/
def negUserBadTypeEvent : Event :=
  [("event_id", .str "evt_0000000002"), ("event_type", .str "bogus"),
   ("user_id", .int (-5)), ("timestamp", .str "2024-01-01T00:00:00Z"),
   ("session_id", .str "sess_1"), ("properties", .dict []),
   ("device", .str "mobile"), ("geo_location", .str "US-CA")]

/-- A record valid in every check except `user_id = -7`. -/
def negUserEvent : Event :=
  [("event_id", .str "evt_0000000003"), ("event_type", .str "purchase"),
   ("user_id", .int (-7)), ("timestamp", .str "2024-01-01T00:00:00Z"),
   ("session_id", .str "sess_1"), ("properties", .dict []),
   ("device", .str "mobile"), ("geo_location", .str "US-CA")]

/-- The §8 purchase event with `user_id` set to the Python boolean `True`. -/
def boolUserEvent : Event :=
  [("event_id", .str "evt_0000000001"), ("event_type", .str "purchase"),
   ("user_id", .bool true), ("timestamp", .str "2024-01-01T00:00:00Z"),
   ("session_id", .str "sess_1"),
   ("properties", .dict [("price", .float (4999 / 100))]),
   ("device", .str "mobile"), ("geo_location", .str "US-CA")]

/-! ## Theorems settling the claims -/

/-- Claim C1: for every event record that passes schema validation, the
orchestrator's overall verdict equals
`schema_result.is_valid AND nullability_result.is_valid`; the Range
Validator and Anomaly Detector results never change the overall boolean. -/
theorem claim_C1 (dv : DataValidator) (ev : Event)
    (h : (EventSchema.validate ev).1 = true) :
    (dv.validate ev).2.1 =
      ((EventSchema.validate ev).1 &&
        (dv.nullability_validator.validate ev).2.is_valid) := by
  simp only [DataValidator.validate, SchemaValidator.validate, h]
  cases hp : priceOf ev <;> simp [hp]

/-- Claim C2: for every event record that fails schema validation, the
orchestrator returns immediately with `overall_valid = false` and exactly
the single schema result, leaving the Range Validator, Nullability
Validator and Anomaly Detector states untouched (they are not invoked). -/
theorem claim_C2 (dv : DataValidator) (ev : Event)
    (h : (EventSchema.validate ev).1 = false) :
    (dv.validate ev).2.1 = false ∧
    (dv.validate ev).2.2 =
      [⟨false, "schema_validator", (EventSchema.validate ev).2, []⟩] ∧
    (dv.validate ev).1.range_validator = dv.range_validator ∧
    (dv.validate ev).1.nullability_validator = dv.nullability_validator ∧
    (dv.validate ev).1.anomaly_detector = dv.anomaly_detector := by
  simp only [DataValidator.validate, SchemaValidator.validate, h]
  simp [h]

/-- Claim C9 (amended): `get_summary` reports total checks, passed count,
warning count and validator names computed from the retained result
sequence; a schema-passing `validate` retains its own result sequence,
while a schema-failing `validate` leaves the previously retained sequence
in place. -/
theorem claim_C9 (dv : DataValidator) (ev : Event) :
    ((dv.validate ev).1).get_summary =
      mkSummaryOf ((dv.validate ev).1.validation_results) ∧
    (dv.validate ev).1.validation_results =
      (if (EventSchema.validate ev).1 = true then (dv.validate ev).2.2
       else dv.validation_results) := by
  constructor
  · rfl
  · by_cases h : (EventSchema.validate ev).1 = true
    · simp only [DataValidator.validate, SchemaValidator.validate, h]
      cases hp : priceOf ev <;> simp [hp]
    · have h2 : (EventSchema.validate ev).1 = false := by
        cases hb : (EventSchema.validate ev).1
        · rfl
        · exact absurd hb h
      simp only [DataValidator.validate, SchemaValidator.validate, h2]
      simp [h2]

lemma rangeScan_length (tag : String) (items : List (String × PyVal)) :
    (rangeScan tag items).length = outOfRangeOn items := by
  induction items with
  | nil => rfl
  | cons p rest ih =>
    obtain ⟨f, v⟩ := p
    cases hb : rangeFind f with
    | none =>
      simp [rangeScan, outOfRangeOn, List.countP_cons, hb, ih]
    | some b =>
      cases hn : v.toNum with
      | none => simp [rangeScan, outOfRangeOn, List.countP_cons, hb, hn, ih]
      | some q =>
        cases hio : (b.lo ≤ q && q ≤ b.hi) <;>
          simp [rangeScan, outOfRangeOn, List.countP_cons, hb, hn, hio, ih,
            Nat.add_comm]
        · simp only [Bool.and_eq_false_iff, decide_eq_false_iff_not,
            not_le] at hio
          rw [if_pos (by tauto)]
        · simpa using hio

/-- Claim C6: the Range Validator scans all constrained fields at top
level and inside `properties` without aborting — the warning list has
exactly one entry per out-of-range numeric matched field (non-numeric
matched fields contribute nothing), `is_valid` holds iff no warnings were
produced, and no error message is ever set. -/
theorem claim_C6 (rv : RangeValidator) (ev : Event) :
    ((rv.validate ev).2.warnings).length =
      outOfRangeOn ev + outOfRangeOn (propsItems ev) ∧
    ((rv.validate ev).2.is_valid = true ↔ (rv.validate ev).2.warnings = []) ∧
    (rv.validate ev).2.error_message = Option.none := by
  refine ⟨?_, ?_, rfl⟩
  · simp [RangeValidator.validate, rangeScan_length]
  · simp [RangeValidator.validate, List.length_eq_zero]

lemma nullScan_eq (ev : Event) (fs : List String) :
    nullScan ev fs = fs.filterMap (nullMsgFor ev) := by
  induction fs with
  | nil => rfl
  | cons f rest ih =>
    cases h : lookupField ev f with
    | none => simp [nullScan, nullMsgFor, List.filterMap_cons, h, ih]
    | some v =>
      cases he : isNullOrEmpty v <;>
        simp [nullScan, nullMsgFor, List.filterMap_cons, h, he, ih]

/-- Claim C7: the Nullability Validator checks all six required fields
with no short-circuit, producing per-field messages that distinguish a
missing field from a null-or-empty one; `is_valid` holds iff every field
passes, and the error message is the semicolon-join of the collected
errors (absent when there are none). -/
theorem claim_C7 (nv : NullabilityValidator) (ev : Event) :
    nullabilityErrors ev = REQUIRED_NON_NULL.filterMap (nullMsgFor ev) ∧
    ((nv.validate ev).2.is_valid = true ↔
      ∀ f ∈ REQUIRED_NON_NULL, nullMsgFor ev f = Option.none) ∧
    (nv.validate ev).2.error_message =
      (if nullabilityErrors ev = [] then Option.none
       else some (String.intercalate "; " (nullabilityErrors ev))) := by
  refine ⟨nullScan_eq ev REQUIRED_NON_NULL, ?_, ?_⟩
  · simp [NullabilityValidator.validate, nullabilityErrors, nullScan_eq,
      List.length_eq_zero, List.filterMap_eq_nil_iff]
  · simp only [NullabilityValidator.validate]
    by_cases h : nullabilityErrors ev = []
    · simp [h]
    · have h2 : (nullabilityErrors ev).isEmpty = false := by
        simpa [List.isEmpty_iff] using h
      simp [h, h2]

lemma sampleVariance_replicate (n : ℕ) (q : ℚ) :
    sampleVariance (List.replicate n q) = 0 := by
  cases n with
  | zero => simp [sampleVariance, sampleMean]
  | succ m =>
    have hm : sampleMean (List.replicate (m + 1) q) = q := by
      have hne : ((m : ℚ) + 1) ≠ 0 := by positivity
      field_simp [sampleMean, List.sum_replicate, nsmul_eq_mul]
    simp [sampleVariance, hm, List.sum_replicate]

/-- Claim C8: with at least 10 samples in the window and zero sample
variance (equivalently `stdev == 0`), `detect` returns a valid result with
no warnings via the early return, never reaching the z-score division. -/
theorem claim_C8 (d : AnomalyDetector) (f : String) (v : ℚ)
    (h1 : 10 ≤ (dequePush d.window_size d.value_history v).length)
    (h2 : sampleVariance (dequePush d.window_size d.value_history v) = 0) :
    (d.detect f v).2 = ⟨true, "anomaly_detector", Option.none, []⟩ := by
  have hlt : ¬ (dequePush d.window_size d.value_history v).length < 10 := by
    omega
  simp [AnomalyDetector.detect, hlt, h2]

/-- Claim C8 witness: ten identical samples give zero variance and the
non-anomalous early return. -/
theorem claim_C8_witness :
    10 ≤ (dequePush 100 (List.replicate 9 (10:ℚ)) 10).length ∧
    sampleVariance (dequePush 100 (List.replicate 9 (10:ℚ)) 10) = 0 ∧
    ((AnomalyDetector.mk 100 3 (List.replicate 9 10) 0).detect "price" 10).2 =
      ⟨true, "anomaly_detector", Option.none, []⟩ := by
  have hp : dequePush 100 (List.replicate 9 (10:ℚ)) 10 = List.replicate 10 10 := by
    simp [dequePush, ← List.replicate_succ']
  have h1 : 10 ≤ (dequePush 100 (List.replicate 9 (10:ℚ)) 10).length := by
    rw [hp]; simp
  have h2 : sampleVariance (dequePush 100 (List.replicate 9 (10:ℚ)) 10) = 0 := by
    rw [hp]; exact sampleVariance_replicate 10 10
  exact ⟨h1, h2, claim_C8 ⟨100, 3, List.replicate 9 10, 0⟩ "price" 10 h1 h2⟩

lemma detectStep_window (d : AnomalyDetector) (v : ℚ) :
    (detectStep d v).window_size = d.window_size := by
  simp only [detectStep, AnomalyDetector.detect]
  repeat' split
  all_goals rfl

lemma detectStep_threshold (d : AnomalyDetector) (v : ℚ) :
    (detectStep d v).std_threshold = d.std_threshold := by
  simp only [detectStep, AnomalyDetector.detect]
  repeat' split
  all_goals rfl

lemma detectStep_history (d : AnomalyDetector) (v : ℚ) :
    (detectStep d v).value_history =
      dequePush d.window_size d.value_history v := by
  simp only [detectStep, AnomalyDetector.detect]
  repeat' split
  all_goals rfl

lemma detect_snd_congr (d1 d2 : AnomalyDetector) (f : String) (v : ℚ)
    (hw : d1.window_size = d2.window_size)
    (ht : d1.std_threshold = d2.std_threshold)
    (hh : d1.value_history = d2.value_history) :
    (d1.detect f v).2 = (d2.detect f v).2 := by
  cases d1
  cases d2
  cases hw
  cases ht
  cases hh
  simp only [AnomalyDetector.detect]
  repeat' split
  all_goals rfl

lemma dequePush_length (maxlen : ℕ) (xs : List ℚ) (v : ℚ) :
    (dequePush maxlen xs v).length = min maxlen (xs.length + 1) := by
  simp [dequePush]
  omega

lemma drop_append_drop (l t : List ℚ) (a b : ℕ) (h : a ≤ l.length) :
    (l.drop a ++ t).drop b = (l ++ t).drop (a + b) := by
  rw [← List.drop_append_of_le_length h, List.drop_drop, Nat.add_comm]

/-- The bounded window after folding a whole observation sequence through
`dequePush` is the suffix of length at most `cap` of all arrivals, in
arrival order. -/
lemma dequeFold_spec (cap : ℕ) (vs : List ℚ) :
    ∀ init : List ℚ, init.length ≤ cap →
      vs.foldl (dequePush cap) init =
        (init ++ vs).drop ((init ++ vs).length - cap) := by
  induction vs with
  | nil =>
    intro init h
    have h0 : (init ++ ([] : List ℚ)).length - cap = 0 := by
      simp
      omega
    simp at h0
    simp [h0]
  | cons v rest ih =>
    intro init h
    rw [List.foldl_cons]
    have hlen : (dequePush cap init v).length ≤ cap := by
      rw [dequePush_length]
      omega
    rw [ih (dequePush cap init v) hlen]
    simp only [dequePush]
    rw [drop_append_drop _ rest _ _ (by simp)]
    rw [show (init ++ [v]) ++ rest = init ++ v :: rest from by simp]
    congr 1
    simp only [dequePush, List.length_append, List.length_drop,
      List.length_cons, List.length_nil]
    omega

lemma feed_window (vs : List ℚ) : ∀ d : AnomalyDetector,
    (feed d vs).window_size = d.window_size := by
  induction vs with
  | nil => intro d; rfl
  | cons v rest ih =>
    intro d
    rw [show feed d (v :: rest) = feed (detectStep d v) rest from rfl, ih,
      detectStep_window]

lemma feed_threshold (vs : List ℚ) : ∀ d : AnomalyDetector,
    (feed d vs).std_threshold = d.std_threshold := by
  induction vs with
  | nil => intro d; rfl
  | cons v rest ih =>
    intro d
    rw [show feed d (v :: rest) = feed (detectStep d v) rest from rfl, ih,
      detectStep_threshold]

lemma feed_history_fold (vs : List ℚ) : ∀ d : AnomalyDetector,
    (feed d vs).value_history =
      vs.foldl (dequePush d.window_size) d.value_history := by
  induction vs with
  | nil => intro d; rfl
  | cons v rest ih =>
    intro d
    rw [show feed d (v :: rest) = feed (detectStep d v) rest from rfl, ih,
      detectStep_window, detectStep_history, List.foldl_cons]

lemma feed_history (vs : List ℚ) (d : AnomalyDetector)
    (h : d.value_history.length ≤ d.window_size) :
    (feed d vs).value_history =
      (d.value_history ++ vs).drop
        ((d.value_history ++ vs).length - d.window_size) := by
  rw [feed_history_fold, dequeFold_spec d.window_size vs d.value_history h]

/-- Claim C4: after any sequence of `detect` calls the window is exactly
the suffix of all arrivals of length at most `window_size` (insertion order
equals arrival order), its length never exceeds the capacity, and once at
capacity each new observation evicts exactly the oldest sample. -/
theorem claim_C4 (d : AnomalyDetector) (vs : List ℚ)
    (h : d.value_history.length ≤ d.window_size) :
    (feed d vs).value_history =
      (d.value_history ++ vs).drop
        ((d.value_history ++ vs).length - d.window_size) ∧
    (feed d vs).value_history.length ≤ d.window_size ∧
    (∀ v : ℚ, d.value_history.length = d.window_size → 0 < d.window_size →
      (detectStep d v).value_history = d.value_history.tail ++ [v]) := by
  refine ⟨feed_history vs d h, ?_, ?_⟩
  · rw [feed_history vs d h]
    simp only [List.length_drop, List.length_append]
    omega
  · intro v hcap hpos
    rw [detectStep_history]
    simp only [dequePush]
    have h1 : (d.value_history ++ [v]).length - d.window_size = 1 := by
      simp only [List.length_append, List.length_cons, List.length_nil]
      omega
    rw [h1, List.drop_append_of_le_length (by omega), List.drop_one]

/-- Claim C4 witness: the window characterisation at a fresh detector fed
three observations. -/
theorem claim_C4_witness :
    AnomalyDetector.init.value_history.length ≤
      AnomalyDetector.init.window_size ∧
    ((feed AnomalyDetector.init [1, 2, 3]).value_history =
      (AnomalyDetector.init.value_history ++ [1, 2, 3]).drop
        ((AnomalyDetector.init.value_history ++ [1, 2, 3]).length -
          AnomalyDetector.init.window_size) ∧
    (feed AnomalyDetector.init [1, 2, 3]).value_history.length ≤
      AnomalyDetector.init.window_size ∧
    (∀ v : ℚ, AnomalyDetector.init.value_history.length =
        AnomalyDetector.init.window_size →
      0 < AnomalyDetector.init.window_size →
      (detectStep AnomalyDetector.init v).value_history =
        AnomalyDetector.init.value_history.tail ++ [v])) :=
  ⟨by decide, claim_C4 AnomalyDetector.init [1, 2, 3] (by decide)⟩

lemma mean_fifty_tens_outlier :
    sampleMean (List.replicate 50 (10:ℚ) ++ [1000]) = 500 / 17 := by
  rw [sampleMean]
  simp [List.sum_append, List.sum_replicate, nsmul_eq_mul]
  norm_num

lemma var_fifty_tens_outlier :
    sampleVariance (List.replicate 50 (10:ℚ) ++ [1000]) = 326700 / 17 := by
  rw [sampleVariance, mean_fifty_tens_outlier]
  simp [List.map_append, List.map_replicate, List.sum_append,
    List.sum_replicate, nsmul_eq_mul]
  norm_num

/-- Claim C3: every `detect` call that leaves fewer than 10 samples in the
window returns a valid result carrying the insufficient-samples advisory
warning; and feeding 50 values of `10.0` then `1000.0` into a fresh
detector yields `is_valid = false` with a z-score above the threshold 3,
stated in the exact squared form
`(value - mean)^2 > 3^2 * variance` with positive variance. -/
theorem claim_C3 (d : AnomalyDetector) (f : String) (v : ℚ)
    (h : (dequePush d.window_size d.value_history v).length < 10) :
    ((d.detect f v).2 =
      ⟨true, "anomaly_detector", Option.none,
       ["Insufficient samples for anomaly detection"]⟩) ∧
    (((feed AnomalyDetector.init
        (List.replicate 50 10)).detect "price" 1000).2.is_valid = false ∧
     0 < sampleVariance (List.replicate 50 (10:ℚ) ++ [1000]) ∧
     (3:ℚ) ^ 2 * sampleVariance (List.replicate 50 (10:ℚ) ++ [1000]) <
       (1000 - sampleMean (List.replicate 50 (10:ℚ) ++ [1000])) ^ 2) := by
  refine ⟨?_, ?_, ?_, ?_⟩
  · simp [AnomalyDetector.detect, h]
  · have hfw : (feed AnomalyDetector.init
        (List.replicate 50 10)).window_size = 100 :=
      feed_window _ _
    have hft : (feed AnomalyDetector.init
        (List.replicate 50 10)).std_threshold = 3 :=
      feed_threshold _ _
    have hfh : (feed AnomalyDetector.init
        (List.replicate 50 10)).value_history = List.replicate 50 10 := by
      rw [feed_history _ _ (by decide)]
      simp [AnomalyDetector.init]
    have hres := detect_snd_congr (feed AnomalyDetector.init
        (List.replicate 50 10)) ⟨100, 3, List.replicate 50 10, 0⟩
        "price" 1000 (by rw [hfw]) (by rw [hft]) (by rw [hfh])
    rw [hres]
    have hdq : dequePush 100 (List.replicate 50 (10:ℚ)) 1000 =
        List.replicate 50 10 ++ [1000] := by
      simp [dequePush]
    have hlen : ¬ (List.replicate 50 (10:ℚ) ++ [1000]).length < 10 := by simp
    have hvne : (sampleVariance (List.replicate 50 (10:ℚ) ++ [1000]) == 0)
        = false := by
      simp only [beq_eq_false_iff_ne, ne_eq, var_fifty_tens_outlier]
      norm_num
    have hexc : anomalyExceeds 1000
        (sampleMean (List.replicate 50 (10:ℚ) ++ [1000]))
        (sampleVariance (List.replicate 50 (10:ℚ) ++ [1000])) 3 = true := by
      simp only [anomalyExceeds, if_pos (show (0:ℚ) ≤ 3 by norm_num),
        decide_eq_true_eq, mean_fifty_tens_outlier, var_fifty_tens_outlier]
      norm_num
    simp only [AnomalyDetector.detect, hdq, hlen, if_false, hvne, hexc]
    simp
  · rw [var_fifty_tens_outlier]
    norm_num
  · rw [mean_fifty_tens_outlier, var_fifty_tens_outlier]
    norm_num

/-- Claim C3 witness: the first observation fed to a fresh detector takes
the insufficient-samples branch. -/
theorem claim_C3_witness :
    (dequePush AnomalyDetector.init.window_size
      AnomalyDetector.init.value_history 5).length < 10 ∧
    (((AnomalyDetector.init.detect "price" 5).2 =
      ⟨true, "anomaly_detector", Option.none,
       ["Insufficient samples for anomaly detection"]⟩) ∧
    (((feed AnomalyDetector.init
        (List.replicate 50 10)).detect "price" 1000).2.is_valid = false ∧
     0 < sampleVariance (List.replicate 50 (10:ℚ) ++ [1000]) ∧
     (3:ℚ) ^ 2 * sampleVariance (List.replicate 50 (10:ℚ) ++ [1000]) <
       (1000 - sampleMean (List.replicate 50 (10:ℚ) ++ [1000])) ^ 2)) :=
  ⟨by decide, claim_C3 AnomalyDetector.init "price" 5 (by decide)⟩

/-- Claim C1 witness: the spec's concrete instance — a record with an
out-of-range `price` in `properties` passes schema validation and the
overall verdict is still governed by schema and nullability alone. -/
theorem claim_C1_witness :
    (EventSchema.validate rangeEvent).1 = true ∧
    (DataValidator.init.validate rangeEvent).2.1 =
      ((EventSchema.validate rangeEvent).1 &&
        (DataValidator.init.nullability_validator.validate
          rangeEvent).2.is_valid) :=
  ⟨rfl, claim_C1 DataValidator.init rangeEvent rfl⟩

/-- Claim C2 witness: the early-return behaviour at a concrete
schema-failing record. -/
theorem claim_C2_witness :
    (EventSchema.validate badEvent).1 = false ∧
    ((DataValidator.init.validate badEvent).2.1 = false ∧
    (DataValidator.init.validate badEvent).2.2 =
      [⟨false, "schema_validator", (EventSchema.validate badEvent).2, []⟩] ∧
    (DataValidator.init.validate badEvent).1.range_validator =
      DataValidator.init.range_validator ∧
    (DataValidator.init.validate badEvent).1.nullability_validator =
      DataValidator.init.nullability_validator ∧
    (DataValidator.init.validate badEvent).1.anomaly_detector =
      DataValidator.init.anomaly_detector) :=
  ⟨rfl, claim_C2 DataValidator.init badEvent rfl⟩

/-- Claim C9 counterexample: after a schema-failing validate call the
summary is computed from the previously retained (here: empty) sequence,
not from the one-element result sequence of that most recent call. -/
theorem claim_C9_counterexample :
    ((DataValidator.init.validate badEvent).2.2).length = 1 ∧
    ((DataValidator.init.validate badEvent).1).get_summary.total_validations
      = 0 :=
  ⟨rfl, rfl⟩

/-- Claim C5 counterexample: a record with negative `user_id` whose
`event_type` is also invalid is rejected, but the error message names the
event type, not `user_id`. -/
theorem claim_C5_counterexample :
    numLeZero (getField negUserBadTypeEvent "user_id") = true ∧
    (EventSchema.validate negUserBadTypeEvent).1 = false ∧
    (EventSchema.validate negUserBadTypeEvent).2 =
      some "Invalid event_type: bogus" ∧
    strContains "Invalid event_type: bogus" "user_id" = false := by
  refine ⟨by decide, rfl, rfl, by decide⟩

/-- Claim C5 (amended): every record whose numeric `user_id` is at most 0
fails schema validation; when every schema check preceding the positivity
check passes, the error message is `user_id must be positive`, which
mentions `user_id`. (As originally stated the claim is false: an earlier
failing check produces a message that does not mention `user_id`.) -/
theorem claim_C5 (ev : Event)
    (hnum : numLeZero (getField ev "user_id") = true) :
    (EventSchema.validate ev).1 = false ∧
    (requiredError ev EventSchema.REQUIRED_FIELDS = Option.none →
     strMember (getField ev "event_type") EventSchema.VALID_EVENT_TYPES
       = true →
     strMember (getField ev "device") EventSchema.VALID_DEVICE_TYPES = true →
     geoOk (getField ev "geo_location") = true →
     sourceBad ev = false →
     timestampOk (getField ev "timestamp") = true →
     ((EventSchema.validate ev).2 = some "user_id must be positive" ∧
      strContains "user_id must be positive" "user_id" = true)) := by
  constructor
  · cases hre : requiredError ev EventSchema.REQUIRED_FIELDS with
    | some e => simp [EventSchema.validate, hre]
    | none =>
      simp only [EventSchema.validate, hre]
      repeat' split
      all_goals simp_all
  · intro h1 h2 h3 h4 h5 h6
    refine ⟨?_, by decide⟩
    simp [EventSchema.validate, h1, h2, h3, h4, h5, h6, hnum]

/-- Claim C5 witness: a record failing only the positivity check is
rejected with the `user_id`-mentioning message. -/
theorem claim_C5_witness :
    numLeZero (getField negUserEvent "user_id") = true ∧
    ((EventSchema.validate negUserEvent).1 = false ∧
     ((EventSchema.validate negUserEvent).2 = some "user_id must be positive" ∧
      strContains "user_id must be positive" "user_id" = true)) := by
  have h := claim_C5 negUserEvent (by decide)
  exact ⟨by decide, h.1, h.2 rfl rfl rfl rfl rfl rfl⟩

/-- Claim C10: schema validation accepts the Python boolean `True` where
an integer is required — `bool` subclasses `int`, so the `isinstance`
check passes and `True` (= 1) satisfies strict positivity — hence an
otherwise well-formed record with `user_id = True` validates and the
orchestrator returns `overall_valid = true`. -/
theorem claim_C10 (dv : DataValidator) (ev : Event)
    (hu : lookupField ev "user_id" = some (PyVal.bool true))
    (hre : requiredError ev EventSchema.REQUIRED_FIELDS = Option.none)
    (h1 : strMember (getField ev "event_type") EventSchema.VALID_EVENT_TYPES
      = true)
    (h2 : strMember (getField ev "device") EventSchema.VALID_DEVICE_TYPES
      = true)
    (h3 : geoOk (getField ev "geo_location") = true)
    (h4 : sourceBad ev = false)
    (h5 : timestampOk (getField ev "timestamp") = true)
    (h6 : nullabilityErrors ev = []) :
    EventSchema.validate ev = (true, Option.none) ∧
    (dv.validate ev).2.1 = true := by
  have hnum : numLeZero (getField ev "user_id") = false := by
    simp [getField, hu, numLeZero, PyVal.toNum]
  have hs : EventSchema.validate ev = (true, Option.none) := by
    simp [EventSchema.validate, hre, h1, h2, h3, h4, h5, hnum]
  refine ⟨hs, ?_⟩
  simp only [DataValidator.validate, SchemaValidator.validate, hs]
  cases hp : priceOf ev <;>
    simp [hp, NullabilityValidator.validate, h6]

/-- Claim C10 witness: the sample purchase event with `user_id = True`
is accepted end to end. -/
theorem claim_C10_witness :
    lookupField boolUserEvent "user_id" = some (PyVal.bool true) ∧
    (EventSchema.validate boolUserEvent = (true, Option.none) ∧
     (DataValidator.init.validate boolUserEvent).2.1 = true) :=
  ⟨rfl, claim_C10 DataValidator.init boolUserEvent rfl rfl rfl rfl rfl rfl
    rfl rfl⟩

end RTAP
